import Mathlib

/-!
Shallow embedding of the LangChain RAG backend
(`app/main.py`, `app/services/rag_service.py`, `app/core/config.py`).

External collaborators (embedding model, Supabase vector RPCs, Gemini LLM)
are modelled as a record of abstract port functions (`Ports`).  The request
handler and service functions are translated into pure Lean functions that
return their value together with an explicit list of the port effects they
perform, in execution order.  Python's `list(set(...))` is modelled with
`List.dedup` (the claims only concern membership and absence of duplicates,
never the hash-dependent iteration order of a Python set).
-/

namespace RagBackend

/-- An embedding vector (opaque to the orchestration code). -/
abbrev Embedding := List Int

/-- A row returned by the `match_documents` RPC: a JSON dict with an optional
`content` field (the code checks `"content" in doc`) and a `metadata` dict
(accessed with `doc["metadata"].get("source", default)`). -/
structure DocRow where
  content : Option String
  metadata : List (String × String)
deriving Repr, DecidableEq

/-- A row returned by the `match_chat_history` RPC. -/
structure HistRow where
  message_type : String
  content : String
deriving Repr, DecidableEq

/-- A row inserted into the `chat_history` table by `add_message_to_history`. -/
structure HistEntry where
  conversation_id : String
  message_type : String
  content : String
  embedding : Embedding
deriving Repr, DecidableEq

/-- LangChain chat messages (`SystemMessage` / `HumanMessage` / `AIMessage`). -/
inductive ChatMessage
  | system (content : String)
  | human (content : String)
  | ai (content : String)
deriving Repr, DecidableEq

/-- The external ports: `embeddings_model.embed_query`, the two Supabase
similarity RPCs, and the LLM client (composed with `StrOutputParser`,
so it maps a message list to text). -/
structure Ports where
  embed : String → Embedding
  matchDocuments : Embedding → Nat → List DocRow
  matchChatHistory : Embedding → String → Nat → List HistRow
  llm : List ChatMessage → String

/-- One observable side effect on a port, recorded in execution order. -/
inductive Effect
  | embedCall (text : String)
  | docMatch (emb : Embedding) (matchCount : Nat)
  | histMatch (emb : Embedding) (conversationId : String) (matchCount : Nat)
  | histInsert (entry : HistEntry)
  | llmCall (messages : List ChatMessage)
deriving Repr, DecidableEq

/-- The history-table inserts contained in an effect trace. -/
def insertsOf (effs : List Effect) : List HistEntry :=
  effs.filterMap fun e => match e with
    | .histInsert h => some h
    | _ => none

/-- The texts passed to `embed_query`, in call order. -/
def embedCallsOf (effs : List Effect) : List String :=
  effs.filterMap fun e => match e with
    | .embedCall t => some t
    | _ => none

/-- The `match_documents` RPC calls (embedding, match_count), in call order. -/
def docMatchesOf (effs : List Effect) : List (Embedding × Nat) :=
  effs.filterMap fun e => match e with
    | .docMatch emb k => some (emb, k)
    | _ => none

/-- The `match_chat_history` RPC calls, in call order. -/
def histMatchesOf (effs : List Effect) : List (Embedding × String × Nat) :=
  effs.filterMap fun e => match e with
    | .histMatch emb cid k => some (emb, cid, k)
    | _ => none

/-- The LLM invocations, in call order. -/
def llmCallsOf (effs : List Effect) : List (List ChatMessage) :=
  effs.filterMap fun e => match e with
    | .llmCall ms => some ms
    | _ => none

/-- `dict.get(key, default)` on a JSON object. -/
def dictGetD (m : List (String × String)) (key default : String) : String :=
  (m.lookup key).getD default

/-! ### `app/services/rag_service.py` -/

/-- The `contextualize_q_system_prompt` string (Python adjacent string
literals concatenated). -/
def contextualize_q_system_prompt : String :=
  "Given a chat history and the latest user question " ++
  "which might reference context in the chat history, " ++
  "formulate a standalone question which can be understood " ++
  "without the chat history. Do NOT answer the question, " ++
  "just reformulate it if needed and otherwise return it as is."

/-- The fixed part of `qa_system_prompt`; the full system message is this
text followed by a blank line and the substituted context block. -/
def qa_system_prompt_head : String :=
  "You are an assistant for question-answering tasks. " ++
  "Use the following pieces of retrieved context to answer " ++
  "the question. If you don\x27t know the answer, just say " ++
  "that you don\x27t know. Use three sentences maximum and keep " ++
  "the answer concise."

/-- `contextualize_q_prompt` rendered on concrete inputs: system instruction,
then the recalled history, then the raw question as the final human turn. -/
def contextualizeMessages (chat_history : List ChatMessage) (input : String) :
    List ChatMessage :=
  [ChatMessage.system contextualize_q_system_prompt] ++ chat_history ++
    [ChatMessage.human input]

/-- `qa_prompt` rendered on concrete inputs: the system template with the
context block substituted, then the recalled history, then the question. -/
def qaPromptMessages (context : String) (chat_history : List ChatMessage)
    (input : String) : List ChatMessage :=
  [ChatMessage.system (qa_system_prompt_head ++ "\n\n" ++ context)] ++
    chat_history ++ [ChatMessage.human input]

/-- `get_retrieved_documents`: embed the question and call the
`match_documents` RPC with `match_count = 5`. -/
def get_retrieved_documents (P : Ports) (question : String) :
    List DocRow × List Effect :=
  let question_embedding := P.embed question
  (P.matchDocuments question_embedding 5,
   [Effect.embedCall question, Effect.docMatch question_embedding 5])

/-- The per-row translation inside `get_relevant_history`: `"human"` rows
become `HumanMessage`, `"ai"` rows become `AIMessage`, everything else is
skipped by the if/elif chain. -/
def msgOfRow (r : HistRow) : Option ChatMessage :=
  if r.message_type = "human" then some (ChatMessage.human r.content)
  else if r.message_type = "ai" then some (ChatMessage.ai r.content)
  else none

/-- `get_relevant_history`: embed the question, call the
`match_chat_history` RPC with `match_count = 4` for this conversation, and
map the returned rows to chat messages in the returned order. -/
def get_relevant_history (P : Ports) (session_id question : String) :
    List ChatMessage × List Effect :=
  let question_embedding := P.embed question
  let rows := P.matchChatHistory question_embedding session_id 4
  (rows.filterMap msgOfRow,
   [Effect.embedCall question,
    Effect.histMatch question_embedding session_id 4])

/-- `add_message_to_history`: embed the content at write time and insert the
row into the `chat_history` table. -/
def add_message_to_history (P : Ports) (session_id message_type content : String) :
    List Effect :=
  let content_embedding := P.embed content
  [Effect.embedCall content,
   Effect.histInsert ⟨session_id, message_type, content, content_embedding⟩]

/-- `history_aware_rephraser = contextualize_q_prompt | llm_client |
StrOutputParser()`: the LLM's text output on the contextualization prompt. -/
def history_aware_rephraser (P : Ports) (chat_history : List ChatMessage)
    (input : String) : String :=
  P.llm (contextualizeMessages chat_history input)

/-- The context block built inside `rag_chain`: retrieve for the (rephrased)
query and join the `content` of rows that have one with a blank line. -/
def contextBlock (P : Ports) (query : String) : String :=
  String.intercalate "\n\n"
    ((get_retrieved_documents P query).1.filterMap DocRow.content)

/-- `rag_chain`: assign `context` by piping the rephraser output through
document retrieval and content concatenation, then run `qa_prompt`, the LLM
and the string parser.  Returns the answer and the effect trace. -/
def rag_chain (P : Ports) (input : String) (chat_history : List ChatMessage) :
    String × List Effect :=
  let reformulated := history_aware_rephraser P chat_history input
  let retrievalEffects := (get_retrieved_documents P reformulated).2
  let context := contextBlock P reformulated
  let answer := P.llm (qaPromptMessages context chat_history input)
  (answer,
   [Effect.llmCall (contextualizeMessages chat_history input)] ++
     retrievalEffects ++
     [Effect.llmCall (qaPromptMessages context chat_history input)])

/-! ### `app/main.py`, `POST /query` -/

/-- The parsed request body (`QueryRequest` pydantic model); the UUID is
modelled as a natural number below `2 ^ 128`. -/
structure QueryRequest where
  question : String
  conversation_id : Option Nat
deriving Repr, DecidableEq

/-- The response body (`QueryResponse` pydantic model). -/
structure QueryResponse where
  answer : String
  sources : List String
  conversation_id : Nat
deriving Repr, DecidableEq

/-- Clears the two variant bits (`int &= ~(0xc000 << 48)`) of CPython's
`uuid.UUID(..., version=4)` constructor. -/
def uuidVariantClearMask : Nat := 2 ^ 128 - 1 - (0xc000 <<< 48)

/-- Clears the four version bits (`int &= ~(0xf000 << 64)`). -/
def uuidVersionClearMask : Nat := 2 ^ 128 - 1 - (0xf000 <<< 64)

/-- `uuid.uuid4()`: 16 random bytes with the variant forced to
`10` and the version forced to `0100`, as in CPython's `uuid` module. -/
def uuid4 (randomBits : Nat) : Nat :=
  ((randomBits % 2 ^ 128 &&& uuidVariantClearMask ||| 0x8000 <<< 48) &&&
      uuidVersionClearMask) |||
    0x4000 <<< 64

/-- `query_rag_endpoint`: resolve the conversation id (`request.conversation_id
or uuid4()`), recall history, run the chain, persist the turn, derive
sources from a fresh retrieval on the original question, and respond. -/
def query_rag_endpoint (P : Ports) (freshUuid : Nat) (request : QueryRequest) :
    QueryResponse × List Effect :=
  let conversation_id := request.conversation_id.getD freshUuid
  let session_id_str := toString conversation_id
  let recallPair := get_relevant_history P session_id_str request.question
  let chainPair := rag_chain P request.question recallPair.1
  let answer := chainPair.1
  let e3 := add_message_to_history P session_id_str "human" request.question
  let e4 := add_message_to_history P session_id_str "ai" answer
  let sourcePair := get_retrieved_documents P request.question
  let sources :=
    if sourcePair.1.isEmpty then []
    else (sourcePair.1.map fun doc => dictGetD doc.metadata "source" "Unknown").dedup
  (⟨answer, sources, conversation_id⟩,
   recallPair.2 ++ chainPair.2 ++ e3 ++ e4 ++ sourcePair.2)

/-- The response of one `/query` call. -/
def handlerResponse (P : Ports) (freshUuid : Nat) (request : QueryRequest) :
    QueryResponse :=
  (query_rag_endpoint P freshUuid request).1

/-- The effect trace of one `/query` call. -/
def handlerEffects (P : Ports) (freshUuid : Nat) (request : QueryRequest) :
    List Effect :=
  (query_rag_endpoint P freshUuid request).2

/-- The session id string used for all history operations of one call. -/
def sessionOf (freshUuid : Nat) (request : QueryRequest) : String :=
  toString (request.conversation_id.getD freshUuid)

/-- The history recalled during one call. -/
def recalledOf (P : Ports) (freshUuid : Nat) (request : QueryRequest) :
    List ChatMessage :=
  (get_relevant_history P (sessionOf freshUuid request) request.question).1

/-- The reformulated question produced by the rephraser during one call. -/
def reformulatedOf (P : Ports) (freshUuid : Nat) (request : QueryRequest) :
    String :=
  history_aware_rephraser P (recalledOf P freshUuid request) request.question

/-- The generated answer of one call. -/
def answerOf (P : Ports) (freshUuid : Nat) (request : QueryRequest) : String :=
  (rag_chain P request.question (recalledOf P freshUuid request)).1

/-! ### `app/main.py`, `GET /eval` -/

/-- `os.path.basename` on POSIX: the part after the last slash
(`p[p.rfind(\x27/\x27) + 1:]`), computed by restarting the accumulator at
every slash. -/
def basename (s : String) : String :=
  ⟨s.data.foldl (fun acc c => if c = '/' then [] else acc ++ [c]) []⟩

/-- The fixed scoring divisor `k = 3`. -/
def evalK : Nat := 3

/-- One entry of the fixed evaluation query set. -/
structure EvalQuery where
  question : String
  expected_sources : List String
deriving Repr, DecidableEq

/-- The fixed `eval_queries` list from `evaluate_rag`. -/
def eval_queries : List EvalQuery :=
  [⟨"How do I initialize the Supabase client in Python?",
    ["Client_Initialization_and_Setup.pdf", "Supabase_Python_Introduction.pdf"]⟩,
   ⟨"What are the authentication methods supported by Supabase?",
    ["Authentication_Methods.pdf"]⟩,
   ⟨"How can I perform CRUD operations on the database?",
    ["Database_Operations.pdf"]⟩,
   ⟨"What are Supabase Edge Functions?",
    ["Edge_Functions_and_API_Integration.pdf"]⟩,
   ⟨"How does Supabase handle real-time subscriptions?",
    ["Real-time_Subscriptions.pdf"]⟩,
   ⟨"What are security best practices for Supabase?",
    ["Error_Handling_and_Security.pdf"]⟩,
   ⟨"How do I upload files to Supabase storage?",
    ["Storage_Management.pdf"]⟩,
   ⟨"What is the purpose of the .env file?",
    ["Client_Initialization_and_Setup.pdf"]⟩,
   ⟨"Can Supabase handle database relationships?",
    ["Database_Operations.pdf"]⟩,
   ⟨"What is the embedding dimension for all-MiniLM-L6-v2?", []⟩]

/-- One entry of the `query_results` list. -/
structure EvalResult where
  query_id : Nat
  question : String
  expected_sources : List String
  retrieved_sources : List String
  precision_at_k : ℚ
deriving Repr, DecidableEq

/-- The `evaluation_summary` object. -/
structure EvalSummary where
  total_queries : Nat
  k_value : Nat
  overall_average_precision_at_k : ℚ
deriving Repr, DecidableEq

/-- The `/eval` response. -/
structure EvalReport where
  evaluation_summary : EvalSummary
  query_results : List EvalResult
deriving Repr, DecidableEq

/-- The retrieved source basenames for one evaluation question:
`[os.path.basename(doc["metadata"].get("source", "")) for doc in data]`,
empty when the RPC returned no rows. -/
def retrieved_sources_for (P : Ports) (question : String) : List String :=
  let rows := (get_retrieved_documents P question).1
  if rows.isEmpty then []
  else rows.map fun doc => basename (dictGetD doc.metadata "source" "")

/-- `sum(1 for source in retrieved_sources if source in expected_sources)`:
the number of retrieved basenames occurring in the expected list, counted
with multiplicity over the retrieved list. -/
def num_relevant_retrieved (retrieved expected : List String) : Nat :=
  retrieved.countP fun s => expected.contains s

/-- `precision_at_k = num_relevant_retrieved / k if k > 0 else 0`. -/
def precision_at_k (retrieved expected : List String) : ℚ :=
  if evalK > 0 then (num_relevant_retrieved retrieved expected : ℚ) / (evalK : ℚ)
  else 0

/-- The result record appended for the query at 0-based index `i`. -/
def eval_result (P : Ports) (i : Nat) (q : EvalQuery) : EvalResult :=
  let retrieved := retrieved_sources_for P q.question
  ⟨i + 1, q.question, q.expected_sources, retrieved,
   precision_at_k retrieved q.expected_sources⟩

/-- The `for i, query_data in enumerate(eval_queries)` loop. -/
def eval_results_from (P : Ports) : Nat → List EvalQuery → List EvalResult
  | _, [] => []
  | i, q :: qs => eval_result P i q :: eval_results_from P (i + 1) qs

/-- The full `eval_results` list. -/
def eval_results (P : Ports) : List EvalResult :=
  eval_results_from P 0 eval_queries

/-- `overall_precision = sum(...) / len(eval_results) if eval_results else 0`. -/
def overall_precision (P : Ports) : ℚ :=
  let rs := eval_results P
  if rs.isEmpty then 0
  else ((rs.map EvalResult.precision_at_k).sum) / (rs.length : ℚ)

/-- `evaluate_rag`: the `/eval` report. -/
def evaluate_rag (P : Ports) : EvalReport :=
  ⟨⟨eval_queries.length, evalK, overall_precision P⟩, eval_results P⟩

/-- What claim C1 calls the size of the set intersection of the retrieved
basenames with the expected sources (stated from the claim's words, for
comparison with `num_relevant_retrieved`). -/
def claimedSetIntersectionCard (retrieved expected : List String) : Nat :=
  (retrieved.dedup.filter fun s => expected.contains s).length

/-! ### `app/core/config.py` -/

/-- A process environment (`os.getenv` backing map). -/
def getenv (env : List (String × String)) (key : String) : Option String :=
  env.lookup key

/-- Python truthiness of an `os.getenv` result: `None` and `""` are falsy. -/
def isTruthy : Option String → Bool
  | none => false
  | some s => !s.isEmpty

/-- The module-level configuration values. -/
structure AppConfig where
  SUPABASE_URL : String
  SUPABASE_KEY : String
  GOOGLE_API_KEY : String
  LLM_MODEL_NAME : String
  EMBEDDING_MODEL_NAME : String
deriving Repr, DecidableEq

/-- The import-time validation of `app/core/config.py`: read the three
credentials and the model name (the model name with default
`"gemini-1.5-flash"`), and raise `ValueError` when any credential is unset
or empty. -/
def loadConfig (env : List (String × String)) : Except String AppConfig :=
  let url := getenv env "SUPABASE_URL"
  let key := getenv env "SUPABASE_ANON_KEY"
  let gkey := getenv env "GOOGLE_API_KEY"
  let model := (getenv env "LLM_MODEL").getD "gemini-1.5-flash"
  if !isTruthy url || !isTruthy key || !isTruthy gkey then
    Except.error "Supabase URL/Key and Google API Key must be set in the .env file"
  else
    Except.ok ⟨url.getD "", key.getD "", gkey.getD "", model, "all-MiniLM-L6-v2"⟩

/-! ### Concrete port instantiations used in counterexamples and witnesses -/

/-- A document store whose two rows share the source
`Authentication_Methods.pdf` (one behind a directory prefix). -/
def c1Ports : Ports where
  embed := fun _ => []
  matchDocuments := fun _ _ =>
    [⟨some "chunk one", [("source", "docs/Authentication_Methods.pdf")]⟩,
     ⟨some "chunk two", [("source", "Authentication_Methods.pdf")]⟩]
  matchChatHistory := fun _ _ _ => []
  llm := fun _ => ""

/-- A document store returning a single relevant row. -/
def c1WitnessPorts : Ports where
  embed := fun _ => []
  matchDocuments := fun _ _ =>
    [⟨some "intro chunk", [("source", "Supabase_Python_Introduction.pdf")]⟩]
  matchChatHistory := fun _ _ _ => []
  llm := fun _ => ""

/-- An LLM that rewrites every question, empty history or not. -/
def c2Ports : Ports where
  embed := fun s => [Int.ofNat s.length]
  matchDocuments := fun _ _ => []
  matchChatHistory := fun _ _ _ => []
  llm := fun _ => "Standalone question"

/-- An LLM that echoes the final human turn of its prompt. -/
def c2WitnessPorts : Ports where
  embed := fun s => [Int.ofNat s.length]
  matchDocuments := fun _ _ => []
  matchChatHistory := fun _ _ _ => []
  llm := fun ms => (ms.getLast?.map fun m => match m with
    | .system c => c
    | .human c => c
    | .ai c => c).getD ""

/-- A document store returning one row whose metadata has no source field. -/
def c4Ports : Ports where
  embed := fun _ => []
  matchDocuments := fun _ _ => [⟨some "orphan chunk", []⟩]
  matchChatHistory := fun _ _ _ => []
  llm := fun _ => "an answer"

/-- An environment with the three credentials set and no LLM model name. -/
def c9Env : List (String × String) :=
  [("SUPABASE_URL", "https://example.supabase.co"),
   ("SUPABASE_ANON_KEY", "anon-key"),
   ("GOOGLE_API_KEY", "google-key")]

/-- The evaluation record of the first fixed query under `c1WitnessPorts`. -/
def c1WitnessResult : EvalResult :=
  eval_result c1WitnessPorts 0
    ⟨"How do I initialize the Supabase client in Python?",
     ["Client_Initialization_and_Setup.pdf", "Supabase_Python_Introduction.pdf"]⟩

/-- The second fixed evaluation query (0-based index 1). -/
def c1AuthQuery : EvalQuery :=
  ⟨"What are the authentication methods supported by Supabase?",
   ["Authentication_Methods.pdf"]⟩

/-! ## Helper lemmas -/

theorem mem_eval_results_from {P : Ports} :
    ∀ {i : Nat} {qs : List EvalQuery} {r : EvalResult},
      r ∈ eval_results_from P i qs → ∃ j q, r = eval_result P j q := by
  intro i qs
  induction qs generalizing i with
  | nil => intro r h; simp [eval_results_from] at h
  | cons q qs ih =>
      intro r h
      rw [eval_results_from, List.mem_cons] at h
      rcases h with rfl | h
      · exact ⟨i, q, rfl⟩
      · exact ih h

theorem length_eval_results_from (P : Ports) :
    ∀ (i : Nat) (qs : List EvalQuery),
      (eval_results_from P i qs).length = qs.length := by
  intro i qs
  induction qs generalizing i with
  | nil => rfl
  | cons q qs ih => simp [eval_results_from, ih]

theorem claimedSetIntersectionCard_of_nodup {retrieved expected : List String}
    (h : retrieved.Nodup) :
    claimedSetIntersectionCard retrieved expected
      = num_relevant_retrieved retrieved expected := by
  rw [claimedSetIntersectionCard, num_relevant_retrieved,
    List.dedup_eq_self.mpr h, List.countP_eq_length_filter]

theorem precision_at_k_eval_result (P : Ports) (j : Nat) (q : EvalQuery) :
    (eval_result P j q).precision_at_k
      = (num_relevant_retrieved (eval_result P j q).retrieved_sources
          (eval_result P j q).expected_sources : ℚ) / 3 := by
  simp [eval_result, precision_at_k, evalK]

theorem overall_precision_eq_mean (P : Ports) :
    overall_precision P
      = ((eval_results P).map EvalResult.precision_at_k).sum
          / ((eval_results P).length : ℚ) := by
  have hlen : (eval_results P).length = 10 := by
    rw [eval_results, length_eval_results_from]; rfl
  have hne : (eval_results P).isEmpty = false := by
    cases h : eval_results P with
    | nil => rw [h] at hlen; simp at hlen
    | cons a l => rfl
  simp only [overall_precision, hne, Bool.false_eq_true, if_false]

/-! ## Claim C1 -/

/-- C1 (counterexample): when the document store returns two chunks whose
source basenames are both `Authentication_Methods.pdf`, the reported
`precision_at_k` for the second fixed query is `2 / 3`, while the size of
the set intersection of the retrieved basenames with the expected sources
divided by 3 is `1 / 3` — the harness counts relevant retrieved rows with
multiplicity, not as a set intersection. -/
theorem claim1_counterexample :
    ((evaluate_rag c1Ports).query_results[1]?).map EvalResult.precision_at_k
        = some (2 / 3 : ℚ)
  ∧ ((evaluate_rag c1Ports).query_results[1]?).map
        (fun r =>
          ((claimedSetIntersectionCard r.retrieved_sources r.expected_sources : ℚ) / 3))
        = some (1 / 3 : ℚ)
  ∧ (2 / 3 : ℚ) ≠ (1 / 3 : ℚ) := by
  have hsel : (evaluate_rag c1Ports).query_results[1]?
      = some (eval_result c1Ports 1 c1AuthQuery) := rfl
  have hnum : num_relevant_retrieved
      (eval_result c1Ports 1 c1AuthQuery).retrieved_sources
      (eval_result c1Ports 1 c1AuthQuery).expected_sources = 2 := by decide
  have hcard : claimedSetIntersectionCard
      (eval_result c1Ports 1 c1AuthQuery).retrieved_sources
      (eval_result c1Ports 1 c1AuthQuery).expected_sources = 1 := by decide
  refine ⟨?_, ?_, by norm_num⟩
  · rw [hsel]
    simp [precision_at_k_eval_result, hnum]
  · rw [hsel]
    simp [hcard]

/-- C1 (amended): for every query result of the evaluation harness,
`precision_at_k` equals the number of retrieved rows whose basename occurs
among the expected sources (counted with multiplicity over the retrieved
list) divided by the fixed divisor 3, and the summary value
`overall_average_precision_at_k` equals the arithmetic mean of the
per-query `precision_at_k` values — both regardless of duplicates; when the
retrieved source basenames happen to be pairwise distinct, the multiplicity
count coincides with the size of the set intersection of the retrieved
basenames with the expected sources, recovering the claim's formula. -/
theorem claim1_theorem (P : Ports) (r : EvalResult)
    (hr : r ∈ (evaluate_rag P).query_results) :
    r.precision_at_k
        = (num_relevant_retrieved r.retrieved_sources r.expected_sources : ℚ) / 3
  ∧ (evaluate_rag P).evaluation_summary.overall_average_precision_at_k
        = ((evaluate_rag P).query_results.map EvalResult.precision_at_k).sum
            / ((evaluate_rag P).query_results.length : ℚ)
  ∧ (r.retrieved_sources.Nodup →
      r.precision_at_k
        = (claimedSetIntersectionCard r.retrieved_sources r.expected_sources : ℚ) / 3) := by
  obtain ⟨j, q, rfl⟩ := mem_eval_results_from hr
  refine ⟨precision_at_k_eval_result P j q, overall_precision_eq_mean P, fun hnd => ?_⟩
  rw [precision_at_k_eval_result P j q, claimedSetIntersectionCard_of_nodup hnd]

/-- C1 (witness): the amended statement instantiated at a store returning a
single, distinct source for the first fixed query, with the inner
distinctness hypothesis discharged as well. -/
theorem claim1_witness :
    c1WitnessResult.precision_at_k
        = (num_relevant_retrieved c1WitnessResult.retrieved_sources
            c1WitnessResult.expected_sources : ℚ) / 3
  ∧ (evaluate_rag c1WitnessPorts).evaluation_summary.overall_average_precision_at_k
        = ((evaluate_rag c1WitnessPorts).query_results.map EvalResult.precision_at_k).sum
            / ((evaluate_rag c1WitnessPorts).query_results.length : ℚ)
  ∧ c1WitnessResult.precision_at_k
        = (claimedSetIntersectionCard c1WitnessResult.retrieved_sources
            c1WitnessResult.expected_sources : ℚ) / 3 :=
  ⟨(claim1_theorem c1WitnessPorts c1WitnessResult (List.mem_cons_self _ _)).1,
   (claim1_theorem c1WitnessPorts c1WitnessResult (List.mem_cons_self _ _)).2.1,
   (claim1_theorem c1WitnessPorts c1WitnessResult (List.mem_cons_self _ _)).2.2
     (by decide)⟩

/-! ## Helper lemmas about the request handler -/

theorem handler_sources (P : Ports) (freshUuid : Nat) (request : QueryRequest) :
    (handlerResponse P freshUuid request).sources
      = ((P.matchDocuments (P.embed request.question) 5).map
          fun doc => dictGetD doc.metadata "source" "Unknown").dedup := by
  simp only [handlerResponse, query_rag_endpoint, get_retrieved_documents]
  cases h : P.matchDocuments (P.embed request.question) 5 with
  | nil => simp [h]
  | cons a l => simp [h]

theorem handlerEffects_eq (P : Ports) (freshUuid : Nat) (request : QueryRequest) :
    handlerEffects P freshUuid request =
      [Effect.embedCall request.question,
       Effect.histMatch (P.embed request.question) (sessionOf freshUuid request) 4,
       Effect.llmCall
         (contextualizeMessages (recalledOf P freshUuid request) request.question),
       Effect.embedCall (reformulatedOf P freshUuid request),
       Effect.docMatch (P.embed (reformulatedOf P freshUuid request)) 5,
       Effect.llmCall
         (qaPromptMessages (contextBlock P (reformulatedOf P freshUuid request))
           (recalledOf P freshUuid request) request.question),
       Effect.embedCall request.question,
       Effect.histInsert
         ⟨sessionOf freshUuid request, "human", request.question,
          P.embed request.question⟩,
       Effect.embedCall (answerOf P freshUuid request),
       Effect.histInsert
         ⟨sessionOf freshUuid request, "ai", answerOf P freshUuid request,
          P.embed (answerOf P freshUuid request)⟩,
       Effect.embedCall request.question,
       Effect.docMatch (P.embed request.question) 5] := rfl

theorem rag_chain_trace (P : Ports) (input : String) (history : List ChatMessage) :
    docMatchesOf (rag_chain P input history).2
        = [(P.embed (history_aware_rephraser P history input), 5)]
  ∧ llmCallsOf (rag_chain P input history).2
        = [contextualizeMessages history input,
           qaPromptMessages (contextBlock P (history_aware_rephraser P history input))
             history input] :=
  ⟨rfl, rfl⟩

theorem uuid4_ne_zero (randomBits : Nat) : uuid4 randomBits ≠ 0 := by
  intro h
  have hbit : (uuid4 randomBits).testBit 78 = true := by
    rw [uuid4, Nat.testBit_lor]
    have h2 : Nat.testBit (0x4000 <<< 64) 78 = true := by decide
    rw [h2, Bool.or_true]
  rw [h, Nat.zero_testBit] at hbit
  exact Bool.false_ne_true hbit

theorem filterMap_content_eq (l : List DocRow) :
    l.filterMap DocRow.content
      = (l.filter fun d => d.content.isSome).map fun d => d.content.getD "" := by
  induction l with
  | nil => rfl
  | cons d l ih =>
      cases h : d.content with
      | none => simp [List.filterMap_cons, List.filter_cons, h, ih]
      | some c => simp [List.filterMap_cons, List.filter_cons, h, ih]

theorem filterMap_msgOfRow_eq (l : List HistRow) :
    l.filterMap msgOfRow
      = (l.filter fun r => r.message_type == "human" || r.message_type == "ai").map
          fun r =>
            if r.message_type == "human" then ChatMessage.human r.content
            else ChatMessage.ai r.content := by
  induction l with
  | nil => rfl
  | cons r l ih =>
      by_cases h1 : r.message_type = "human"
      · simp [List.filterMap_cons, List.filter_cons, msgOfRow, h1, ih]
      · by_cases h2 : r.message_type = "ai"
        · simp [List.filterMap_cons, List.filter_cons, msgOfRow, h1, h2, ih]
        · simp [List.filterMap_cons, List.filter_cons, msgOfRow, h1, h2, ih]

/-! ## Claim C2 -/

/-- C2 (counterexample): with an LLM that answers `"Standalone question"` to
every prompt, the reformulated question for `"What is Supabase?"` under
empty recalled history is `"Standalone question"`, not the original
question, and that rewritten text is what document retrieval is queried
with — the code forwards the LLM output unconditionally and does not
enforce the pass-through. -/
theorem claim2_counterexample :
    history_aware_rephraser c2Ports [] "What is Supabase?" = "Standalone question"
  ∧ "Standalone question" ≠ "What is Supabase?"
  ∧ docMatchesOf (rag_chain c2Ports "What is Supabase?" []).2
      = [(c2Ports.embed "Standalone question", 5)]
  ∧ (llmCallsOf (rag_chain c2Ports "What is Supabase?" []).2).length = 2 :=
  ⟨rfl, by decide, rfl, rfl⟩

/-- C2 (amended): when the recalled history is empty, the underlying LLM
call is still made (on the two-message contextualization prompt) and its
output is used verbatim as the reformulated question; the reformulated
question passed to document retrieval equals the original question exactly
when the LLM returns the question unchanged, as its prompt instructs —
the code itself does not enforce this pass-through. -/
theorem claim2_theorem (P : Ports) (question : String)
    (h : P.llm (contextualizeMessages [] question) = question) :
    history_aware_rephraser P [] question = question
  ∧ docMatchesOf (rag_chain P question []).2 = [(P.embed question, 5)]
  ∧ llmCallsOf (rag_chain P question []).2
      = [contextualizeMessages [] question,
         qaPromptMessages (contextBlock P question) [] question] := by
  have hreph : history_aware_rephraser P [] question = question := h
  refine ⟨hreph, ?_, ?_⟩
  · rw [(rag_chain_trace P question []).1, hreph]
  · rw [(rag_chain_trace P question []).2, hreph]

/-- C2 (witness): the amended statement instantiated at an LLM that echoes
the final human turn of its prompt. -/
theorem claim2_witness :
    history_aware_rephraser c2WitnessPorts [] "What is Supabase?" = "What is Supabase?"
  ∧ docMatchesOf (rag_chain c2WitnessPorts "What is Supabase?" []).2
      = [(c2WitnessPorts.embed "What is Supabase?", 5)]
  ∧ llmCallsOf (rag_chain c2WitnessPorts "What is Supabase?" []).2
      = [contextualizeMessages [] "What is Supabase?",
         qaPromptMessages (contextBlock c2WitnessPorts "What is Supabase?") []
           "What is Supabase?"] :=
  claim2_theorem c2WitnessPorts "What is Supabase?" rfl

/-! ## Claim C3 -/

/-- C3: a `/query` call inserts exactly two history rows, both under the
request's conversation id: a `human` row whose content is the original
question and an `ai` row whose content is the returned answer; and the
embed-call trace shows each row embedded by its own `embed_query` call at
write time (calls 3 and 4), separate from the recall-time call (call 1)
and the retrieval-time calls. -/
theorem claim3_theorem (P : Ports) (freshUuid : Nat) (request : QueryRequest) :
    insertsOf (handlerEffects P freshUuid request)
      = [⟨sessionOf freshUuid request, "human", request.question,
          P.embed request.question⟩,
         ⟨sessionOf freshUuid request, "ai", answerOf P freshUuid request,
          P.embed (answerOf P freshUuid request)⟩]
  ∧ (handlerResponse P freshUuid request).answer = answerOf P freshUuid request
  ∧ embedCallsOf (handlerEffects P freshUuid request)
      = [request.question, reformulatedOf P freshUuid request, request.question,
         answerOf P freshUuid request, request.question] :=
  ⟨rfl, rfl, rfl⟩

/-! ## Claim C4 -/

/-- C4: a retrieved row whose metadata has no `source` key contributes the
default `"Unknown"` to the response sources, and the sources computation is
the total function mapping every row through
`metadata.get("source", "Unknown")` followed by deduplication — no row can
make it fail. -/
theorem claim4_theorem (P : Ports) (freshUuid : Nat) (request : QueryRequest)
    (row : DocRow) (hrow : row ∈ P.matchDocuments (P.embed request.question) 5)
    (hmiss : row.metadata.lookup "source" = none) :
    "Unknown" ∈ (handlerResponse P freshUuid request).sources
  ∧ (handlerResponse P freshUuid request).sources
      = ((P.matchDocuments (P.embed request.question) 5).map
          fun doc => dictGetD doc.metadata "source" "Unknown").dedup := by
  refine ⟨?_, handler_sources P freshUuid request⟩
  rw [handler_sources, List.mem_dedup]
  exact List.mem_map.mpr ⟨row, hrow, by simp [dictGetD, hmiss]⟩

/-- C4 (witness): a store returning one row with empty metadata yields
`"Unknown"` among the response sources. -/
theorem claim4_witness :
    "Unknown" ∈ (handlerResponse c4Ports 7 ⟨"What is Supabase?", none⟩).sources
  ∧ (handlerResponse c4Ports 7 ⟨"What is Supabase?", none⟩).sources
      = ((c4Ports.matchDocuments (c4Ports.embed "What is Supabase?") 5).map
          fun doc => dictGetD doc.metadata "source" "Unknown").dedup :=
  claim4_theorem c4Ports 7 ⟨"What is Supabase?", none⟩ ⟨some "orphan chunk", []⟩
    (by decide) rfl

/-! ## Claim C5 -/

/-- C5: the response's conversation id is the caller-supplied one when
given and otherwise the freshly generated `uuid4` value, which is non-nil
for every random input thanks to the forced version bits; and the very same
id (as a string) is used for the history recall call and both history
inserts of the request. -/
theorem claim5_theorem (P : Ports) (randomBits : Nat) (request : QueryRequest) :
    (handlerResponse P (uuid4 randomBits) request).conversation_id
        = request.conversation_id.getD (uuid4 randomBits)
  ∧ uuid4 randomBits ≠ 0
  ∧ histMatchesOf (handlerEffects P (uuid4 randomBits) request)
      = [(P.embed request.question,
          toString ((handlerResponse P (uuid4 randomBits) request).conversation_id), 4)]
  ∧ (insertsOf (handlerEffects P (uuid4 randomBits) request)).map
        HistEntry.conversation_id
      = [toString ((handlerResponse P (uuid4 randomBits) request).conversation_id),
         toString ((handlerResponse P (uuid4 randomBits) request).conversation_id)] :=
  ⟨rfl, uuid4_ne_zero randomBits, rfl, rfl⟩

/-! ## Claim C6 -/

/-- C6: the sources list of every `/query` response has no duplicates,
whatever the document store returns. -/
theorem claim6_theorem (P : Ports) (freshUuid : Nat) (request : QueryRequest) :
    (handlerResponse P freshUuid request).sources.Nodup := by
  rw [handler_sources]
  exact List.nodup_dedup _

/-! ## Claim C7 -/

/-- C7: the answer is generated from the QA prompt whose context block is
obtained by retrieving with `match_count = 5` for the reformulated question
and concatenating, with a blank-line separator and in the store's returned
order, the `content` fields of exactly those rows that have one. -/
theorem claim7_theorem (P : Ports) (input : String) (history : List ChatMessage) :
    (rag_chain P input history).1
        = P.llm (qaPromptMessages
            (contextBlock P (history_aware_rephraser P history input)) history input)
  ∧ contextBlock P (history_aware_rephraser P history input)
        = String.intercalate "\n\n"
            (((P.matchDocuments (P.embed (history_aware_rephraser P history input)) 5).filter
                fun d => d.content.isSome).map fun d => d.content.getD "")
  ∧ docMatchesOf (rag_chain P input history).2
        = [(P.embed (history_aware_rephraser P history input), 5)] := by
  refine ⟨rfl, ?_, rfl⟩
  rw [contextBlock, filterMap_content_eq]
  rfl

/-! ## Claim C8 -/

/-- C8: each `/query` call performs exactly two document retrievals — first
for the reformulated question (the generation context), then for the
original question — and the response sources are computed from the second
call's rows, mapped through the `source` metadata field and deduplicated. -/
theorem claim8_theorem (P : Ports) (freshUuid : Nat) (request : QueryRequest) :
    docMatchesOf (handlerEffects P freshUuid request)
      = [(P.embed (reformulatedOf P freshUuid request), 5),
         (P.embed request.question, 5)]
  ∧ (handlerResponse P freshUuid request).sources
      = ((P.matchDocuments (P.embed request.question) 5).map
          fun doc => dictGetD doc.metadata "source" "Unknown").dedup :=
  ⟨rfl, handler_sources P freshUuid request⟩

/-! ## Claim C9 -/

/-- C9 (counterexample): with the three credentials set and `LLM_MODEL`
unset, configuration loading succeeds — the model name silently defaults to
`"gemini-1.5-flash"` instead of raising a fatal error as the claim states. -/
theorem claim9_counterexample :
    loadConfig c9Env
        = Except.ok ⟨"https://example.supabase.co", "anon-key", "google-key",
            "gemini-1.5-flash", "all-MiniLM-L6-v2"⟩
  ∧ getenv c9Env "LLM_MODEL" = none :=
  ⟨rfl, rfl⟩

/-- C9 (amended): if any of the three required credentials (Supabase URL,
Supabase key, Google API key) is unset or empty at startup, configuration
loading raises the fatal `ValueError` and the process does not start; a
missing LLM model name is not fatal — it falls back to the default
`"gemini-1.5-flash"`. -/
theorem claim9_theorem (env : List (String × String))
    (h : isTruthy (getenv env "SUPABASE_URL") = false
       ∨ isTruthy (getenv env "SUPABASE_ANON_KEY") = false
       ∨ isTruthy (getenv env "GOOGLE_API_KEY") = false) :
    loadConfig env
      = Except.error "Supabase URL/Key and Google API Key must be set in the .env file" := by
  have hcond : (!isTruthy (getenv env "SUPABASE_URL")
      || !isTruthy (getenv env "SUPABASE_ANON_KEY")
      || !isTruthy (getenv env "GOOGLE_API_KEY")) = true := by
    rcases h with h | h | h <;> simp [h]
  simp [loadConfig, hcond]

/-- C9 (witness): an environment lacking `SUPABASE_URL` fails to load. -/
theorem claim9_witness :
    loadConfig [("SUPABASE_ANON_KEY", "anon-key"), ("GOOGLE_API_KEY", "google-key")]
      = Except.error "Supabase URL/Key and Google API Key must be set in the .env file" :=
  claim9_theorem [("SUPABASE_ANON_KEY", "anon-key"), ("GOOGLE_API_KEY", "google-key")]
    (Or.inl rfl)

/-! ## Claim C10 -/

/-- C10: history recall keeps exactly the returned rows whose
`message_type` is `"human"` or `"ai"`, maps them to human/ai messages in
the store's returned order, and silently omits every other row — the
per-row translation returns nothing precisely for unrecognized types, so
recall never fails on them. -/
theorem claim10_theorem (P : Ports) (session_id question : String) :
    (get_relevant_history P session_id question).1
      = ((P.matchChatHistory (P.embed question) session_id 4).filter
          fun r => r.message_type == "human" || r.message_type == "ai").map
          (fun r =>
            if r.message_type == "human" then ChatMessage.human r.content
            else ChatMessage.ai r.content)
  ∧ ∀ r : HistRow,
      msgOfRow r = none ↔ r.message_type ≠ "human" ∧ r.message_type ≠ "ai" := by
  constructor
  · exact filterMap_msgOfRow_eq _
  · intro r
    by_cases h1 : r.message_type = "human"
    · simp [msgOfRow, h1]
    · by_cases h2 : r.message_type = "ai"
      · simp [msgOfRow, h1, h2]
      · simp [msgOfRow, h1, h2]

end RagBackend
